import Mathlib

/-!
Verification development for the v2 pagination helper and the in-memory
shipment store of `src/src/app.py` (enterprise-resource-planning).

The Python functions `paginate_list`, `v2_create_shipment`,
`v2_get_shipment_by_id`, `v2_update_shipment` and `v2_patch_shipment` are
embedded shallowly below.  JSON payload values that the handlers read are
modelled as `Option String` fields (a key that is absent is `none`, a key
that is present with string value `v` is `some v`).  Wall-clock readings
(`datetime.utcnow()` renderings interpolated into ids, tracking numbers and
the `updatedAt` stamp) are passed in as explicit `String` arguments, since
they are environment inputs of the handlers.
-/

namespace ERP

/-- The Python list slice `l[a:b]` for integer bounds `a`, `b`:
a negative bound counts from the end of the list and both bounds are
clamped to `[0, length]`. -/
def pySlice {α : Type} (l : List α) (a b : Int) : List α :=
  let n : Int := l.length
  let lo : Nat := (if a < 0 then max 0 (n + a) else min a n).toNat
  let hi : Nat := (if b < 0 then max 0 (n + b) else min b n).toNat
  (l.take hi).drop lo

/-- Pagination metadata, the `pagination` sub-object built by
`paginate_list` in `src/src/app.py`. -/
structure Pagination where
  page : Int
  limit : Int
  totalPages : Int
  totalItems : Int
  hasNextPage : Bool
  hasPreviousPage : Bool
deriving Repr, DecidableEq

/-- Result of `paginate_list`: the slice plus pagination metadata. -/
structure PageResult (α : Type) where
  items : List α
  pagination : Pagination
deriving Repr, DecidableEq

/-- Embedding of `paginate_list(items, page, limit)` from `src/src/app.py`
(lines 1191-1210).  Python `//` on the non-negative numerator is floor
division, embedded as `Int.fdiv`. -/
def paginate_list {α : Type} (items : List α) (page limit : Int) : PageResult α :=
  let total_items : Int := items.length
  let total_pages : Int := if limit > 0 then Int.fdiv (total_items + limit - 1) limit else 1
  let start_index : Int := (page - 1) * limit
  let end_index : Int := start_index + limit
  { items := pySlice items start_index end_index
    pagination :=
      { page := page
        limit := limit
        totalPages := total_pages
        totalItems := total_items
        hasNextPage := decide (page < total_pages)
        hasPreviousPage := decide (page > 1) } }

/-- The slice is empty as soon as the lower bound is at or past the length. -/
theorem pySlice_eq_nil_of_le {α : Type} (l : List α) (a b : Int)
    (ha : (l.length : Int) ≤ a) : pySlice l a b = [] := by
  have hn : (0 : Int) ≤ (l.length : Int) := Int.ofNat_nonneg _
  have ha0 : ¬ a < 0 := by omega
  have hmin : min a (l.length : Int) = (l.length : Int) := min_eq_right ha
  unfold pySlice
  simp only [if_neg ha0, hmin, Int.toNat_natCast]
  apply List.drop_eq_nil_of_le
  calc (l.take _).length ≤ l.length := by
        rw [List.length_take]; exact min_le_right _ _

/-- The slice `l[0:0]` is empty. -/
theorem pySlice_zero_zero {α : Type} (l : List α) : pySlice l 0 0 = [] := by
  have hn : (0 : Int) ≤ (l.length : Int) := Int.ofNat_nonneg _
  simp [pySlice, min_eq_left hn]

/-- Bounds for the ceiling-division expression `(n + l - 1) // l` computed by
`paginate_list` when `limit > 0`. -/
theorem ceil_bounds (n : Nat) (l : Int) (hl : 0 < l) :
    (Int.fdiv ((n : Int) + l - 1) l - 1) * l < (n : Int) ∧
    (n : Int) ≤ Int.fdiv ((n : Int) + l - 1) l * l := by
  rw [Int.fdiv_eq_ediv _ hl.le]
  have h1 := Int.ediv_add_emod ((n : Int) + l - 1) l
  have h2 := Int.emod_nonneg ((n : Int) + l - 1) (ne_of_gt hl)
  have h3 := Int.emod_lt_of_pos ((n : Int) + l - 1) hl
  constructor
  · nlinarith [h1, h2, h3]
  · nlinarith [h1, h2, h3]

/-- Claim C1: for every item list, page and limit, when `limit > 0` the
result field `totalPages` equals the ceiling of `totalItems / limit`
(`totalItems` being the length of the list), and when `limit = 0` it equals
`1`; the embedded function is total, so no error is raised in either case. -/
theorem paginate_totalPages {α : Type} (items : List α) (page limit : Int) :
    (0 < limit →
      (paginate_list items page limit).pagination.totalPages
        = ⌈(items.length : ℚ) / (limit : ℚ)⌉) ∧
    (limit = 0 → (paginate_list items page limit).pagination.totalPages = 1) := by
  constructor
  · intro hl
    obtain ⟨b1, b2⟩ := ceil_bounds items.length limit hl
    have hl2 : (0 : ℚ) < (limit : ℚ) := by exact_mod_cast hl
    simp only [paginate_list, if_pos (show limit > 0 from hl)]
    symm
    rw [Int.ceil_eq_iff]
    constructor
    · rw [lt_div_iff₀ hl2]
      exact_mod_cast b1
    · rw [div_le_iff₀ hl2]
      exact_mod_cast b2
  · intro h0
    simp [paginate_list, h0]

/-- Witness for claim C1: both branches applied at concrete inputs. -/
theorem paginate_totalPages_witness :
    (0 < (2 : Int) ∧
      (paginate_list ([0, 1, 2] : List Nat) 1 2).pagination.totalPages
        = ⌈((([0, 1, 2] : List Nat).length : ℚ)) / (((2 : Int)) : ℚ)⌉) ∧
    ((0 : Int) = 0 ∧
      (paginate_list ([0, 1, 2] : List Nat) 1 0).pagination.totalPages = 1) :=
  ⟨⟨by decide, (paginate_totalPages [0, 1, 2] 1 2).1 (by decide)⟩,
   ⟨rfl, (paginate_totalPages [0, 1, 2] 1 0).2 rfl⟩⟩

/-- Claim C2: with `limit > 0`, a page beyond `totalPages` yields an empty
slice (the function is total: no error is possible). -/
theorem paginate_out_of_range {α : Type} (items : List α) (page limit : Int)
    (hl : 0 < limit)
    (hp : (paginate_list items page limit).pagination.totalPages < page) :
    (paginate_list items page limit).items = [] := by
  simp only [paginate_list, if_pos (show limit > 0 from hl)] at hp ⊢
  set q : Int := Int.fdiv ((items.length : Int) + limit - 1) limit with hq
  have b2 : (items.length : Int) ≤ q * limit := (ceil_bounds items.length limit hl).2
  apply pySlice_eq_nil_of_le
  calc (items.length : Int) ≤ q * limit := b2
    _ ≤ (page - 1) * limit := by
        apply mul_le_mul_of_nonneg_right _ hl.le
        omega

/-- Witness for claim C2, on the concrete instance named by the claim:
5 items, page 10, limit 10. -/
theorem paginate_out_of_range_witness :
    0 < (10 : Int) ∧
    (paginate_list ([0, 1, 2, 3, 4] : List Nat) 10 10).pagination.totalPages < 10 ∧
    (paginate_list ([0, 1, 2, 3, 4] : List Nat) 10 10).items = [] ∧
    (paginate_list ([0, 1, 2, 3, 4] : List Nat) 10 10).pagination.hasNextPage = false ∧
    (paginate_list ([0, 1, 2, 3, 4] : List Nat) 10 10).pagination.hasPreviousPage = true :=
  ⟨by decide, by decide,
   paginate_out_of_range [0, 1, 2, 3, 4] 10 10 (by decide) (by decide),
   by decide, by decide⟩

/-- Claim C10: with `limit = 0` and any `page ≥ 1`, the slice is empty
(never the full collection), `totalPages = 1` and `hasNextPage = false`,
because `endIndex = startIndex + 0` makes the slice bounds collapse. -/
theorem paginate_zero_limit {α : Type} (items : List α) (page : Int)
    (hp : 1 ≤ page) :
    (paginate_list items page 0).items = [] ∧
    (paginate_list items page 0).pagination.totalPages = 1 ∧
    (paginate_list items page 0).pagination.hasNextPage = false := by
  refine ⟨?_, ?_, ?_⟩
  · simp only [paginate_list, mul_zero, add_zero]
    exact pySlice_zero_zero items
  · simp [paginate_list]
  · simp only [paginate_list]
    simp only [decide_eq_false_iff_not]
    omega

/-- Witness for claim C10 at a concrete input. -/
theorem paginate_zero_limit_witness :
    1 ≤ (3 : Int) ∧
    (paginate_list ([7, 8, 9] : List Nat) 3 0).items = [] ∧
    (paginate_list ([7, 8, 9] : List Nat) 3 0).pagination.totalPages = 1 ∧
    (paginate_list ([7, 8, 9] : List Nat) 3 0).pagination.hasNextPage = false :=
  ⟨by decide,
   (paginate_zero_limit [7, 8, 9] 3 (by decide)).1,
   (paginate_zero_limit [7, 8, 9] 3 (by decide)).2.1,
   (paginate_zero_limit [7, 8, 9] 3 (by decide)).2.2⟩

/-! ### The v2 shipment store -/

/-- A shipment record as built and mutated by the v2 shipment handlers.
The `items` and `location` keys are absent at creation and can only be
introduced by the patch handler, hence the `none` defaults. -/
structure Shipment where
  id : String
  trackingNumber : String
  orderId : Option String
  carrier : Option String
  origin : Option String
  destination : Option String
  shipDate : Option String
  estimatedDelivery : Option String
  status : String
  updatedAt : Option String := none
  items : Option String := none
  location : Option String := none
deriving Repr, DecidableEq

/-- The JSON body accepted by `v2_create_shipment`; every field is an
optional caller-supplied string (`data.get(...)` in the source).  A `status`
key, if supplied, is read by no code path. -/
structure CreatePayload where
  orderId : Option String := none
  carrier : Option String := none
  origin : Option String := none
  destination : Option String := none
  shipDate : Option String := none
  estimatedDelivery : Option String := none
  status : Option String := none
deriving Repr, DecidableEq

/-- The JSON body accepted by the update (PUT) and patch (PATCH) handlers.
The handlers probe exactly these keys; note that the PUT handler reads
`estimatedDeliveryDate` while the PATCH handler reads `estimatedDelivery`. -/
structure UpdatePayload where
  carrier : Option String := none
  trackingNumber : Option String := none
  status : Option String := none
  estimatedDelivery : Option String := none
  estimatedDeliveryDate : Option String := none
  orderId : Option String := none
  items : Option String := none
  origin : Option String := none
  destination : Option String := none
  location : Option String := none
deriving Repr, DecidableEq

/-- Python truthiness of the payload dict (`not data`): true when no key is
present. -/
def UpdatePayload.isEmpty (d : UpdatePayload) : Bool :=
  d.carrier.isNone && d.trackingNumber.isNone && d.status.isNone &&
  d.estimatedDelivery.isNone && d.estimatedDeliveryDate.isNone &&
  d.orderId.isNone && d.items.isNone && d.origin.isNone &&
  d.destination.isNone && d.location.isNone

/-- Outcome of a v2 handler: `v2_success_response(data, http)` or
`v2_error_response(code, message, http)`. -/
inductive V2Result (α : Type) where
  | success (data : α) (httpStatus : Nat)
  | error (code : String) (message : String) (httpStatus : Nat)
deriving Repr, DecidableEq

/-- Whether a handler outcome is an error response. -/
def V2Result.isError {α : Type} : V2Result α → Bool
  | .success _ _ => false
  | .error _ _ _ => true

/-- The record built by `v2_create_shipment` from the decoded payload and
the two clock renderings interpolated into `id` and `trackingNumber`
(`str(datetime.utcnow().timestamp())` and
`str(int(datetime.utcnow().timestamp()))`). -/
def newShipment (data : CreatePayload) (tsFloat tsInt : String) : Shipment :=
  { id := "ship-" ++ tsFloat
    trackingNumber := "TRK-" ++ tsInt
    orderId := data.orderId
    carrier := data.carrier
    origin := data.origin
    destination := data.destination
    shipDate := data.shipDate
    estimatedDelivery := data.estimatedDelivery
    status := "pending" }

/-- Embedding of `v2_create_shipment` (`src/src/app.py` lines 2082-2125):
`data = none` models an absent/null JSON body. -/
def v2_create_shipment (data : Option CreatePayload) (tsFloat tsInt : String)
    (store : List Shipment) : V2Result Shipment × List Shipment :=
  match data with
  | none =>
      (.error "MISSING_JSON_DATA" "Request body must contain valid JSON data" 400, store)
  | some d =>
      let s := newShipment d tsFloat tsInt
      (.success s 201, store ++ [s])

/-- Embedding of `v2_get_shipment_by_id` (`src/src/app.py` lines 2140-2152):
the handler ignores the store and answers a fixed record for every id. -/
structure ShipmentSummary where
  id : String
  trackingNumber : String
  status : String
  estimatedDelivery : String
deriving Repr, DecidableEq

/-- The GET handler for a single shipment id. -/
def v2_get_shipment_by_id (shipment_id : String) (_store : List Shipment) :
    V2Result ShipmentSummary :=
  .success
    { id := shipment_id
      trackingNumber := "TRK-001"
      status := "in_transit"
      estimatedDelivery := "2024-02-01" } 200

/-- The linear search over `created_shipments` performed by the PUT and
PATCH handlers: first record whose `id` matches, with its index. -/
def findShipment (sid : String) : List Shipment → Option (Nat × Shipment)
  | [] => none
  | s :: rest =>
      if s.id = sid then some (0, s)
      else (findShipment sid rest).map (fun p => (p.1 + 1, p.2))

/-- The five legal status values checked by the PUT handler. -/
def validStatuses : List String :=
  ["pending", "in_transit", "delivered", "cancelled", "delayed"]

/-- The field assignments performed by the PUT handler after validation:
`carrier`, `trackingNumber` and `status` are taken from the same-named
payload keys, while the record field `estimatedDelivery` is assigned from
the payload key `estimatedDeliveryDate`; finally `updatedAt` is stamped. -/
def replaceApply (s : Shipment) (d : UpdatePayload) (now : String) : Shipment :=
  let s1 := match d.carrier with
    | some v => { s with carrier := some v }
    | none => s
  let s2 := match d.trackingNumber with
    | some v => { s1 with trackingNumber := v }
    | none => s1
  let s3 := match d.status with
    | some v => { s2 with status := v }
    | none => s2
  let s4 := match d.estimatedDeliveryDate with
    | some v => { s3 with estimatedDelivery := some v }
    | none => s3
  { s4 with updatedAt := some now }

/-- Embedding of `v2_update_shipment` (`src/src/app.py` lines 2179-2243),
the PUT handler: missing body, then lookup, then the three validations in
source order, then the field assignments. -/
def v2_update_shipment (shipment_id : String) (data : Option UpdatePayload)
    (now : String) (store : List Shipment) :
    V2Result Shipment × List Shipment :=
  match data with
  | none =>
      (.error "MISSING_JSON_DATA" "Request body must contain valid JSON data" 400, store)
  | some d =>
      match findShipment shipment_id store with
      | none =>
          (.error "SHIPMENT_NOT_FOUND"
            ("Shipment with ID " ++ shipment_id ++ " not found") 404, store)
      | some (idx, s) =>
          if d.carrier = some "" then
            (.error "VALIDATION_ERROR" "Carrier cannot be empty" 400, store)
          else if d.trackingNumber = some "" then
            (.error "VALIDATION_ERROR" "Tracking number cannot be empty" 400, store)
          else if (match d.status with
                   | some v => !(validStatuses.contains v)
                   | none => false) then
            (.error "VALIDATION_ERROR"
              "Invalid status. Must be one of: pending, in_transit, delivered, cancelled, delayed"
              400, store)
          else
            let u := replaceApply s d now
            (.success u 200, store.set idx u)

/-- The per-field assignments of the PATCH loop over its allow-list
(`status`, `trackingNumber`, `orderId`, `items`, `origin`, `destination`,
`estimatedDelivery`, `location`): each present key overwrites the
same-named record field, independent of the others. -/
def patchApply (s : Shipment) (d : UpdatePayload) : Shipment :=
  { s with
    status := match d.status with | some v => v | none => s.status
    trackingNumber := match d.trackingNumber with | some v => v | none => s.trackingNumber
    orderId := match d.orderId with | some v => some v | none => s.orderId
    items := match d.items with | some v => some v | none => s.items
    origin := match d.origin with | some v => some v | none => s.origin
    destination := match d.destination with | some v => some v | none => s.destination
    estimatedDelivery := match d.estimatedDelivery with | some v => some v | none => s.estimatedDelivery
    location := match d.location with | some v => some v | none => s.location }

/-- The `updated_fields` list accumulated by the PATCH loop, in the fixed
iteration order of its allow-list. -/
def patchFields (d : UpdatePayload) : List String :=
  (if d.status.isSome then ["status"] else []) ++
  (if d.trackingNumber.isSome then ["trackingNumber"] else []) ++
  (if d.orderId.isSome then ["orderId"] else []) ++
  (if d.items.isSome then ["items"] else []) ++
  (if d.origin.isSome then ["origin"] else []) ++
  (if d.destination.isSome then ["destination"] else []) ++
  (if d.estimatedDelivery.isSome then ["estimatedDelivery"] else []) ++
  (if d.location.isSome then ["location"] else [])

/-- The PATCH response body: the updated record plus the list of field
names that were applied. -/
structure PatchResult where
  shipment : Shipment
  updatedFields : List String
deriving Repr, DecidableEq

/-- Embedding of `v2_patch_shipment` (`src/src/app.py` lines 2246-2284):
`not data` rejects an absent or empty payload, then lookup, then the
allow-list loop with no validation of any value. -/
def v2_patch_shipment (shipment_id : String) (data : Option UpdatePayload)
    (now : String) (store : List Shipment) :
    V2Result PatchResult × List Shipment :=
  match data with
  | none => (.error "INVALID_DATA" "No data provided for update" 400, store)
  | some d =>
      if d.isEmpty then
        (.error "INVALID_DATA" "No data provided for update" 400, store)
      else
        match findShipment shipment_id store with
        | none => (.error "SHIPMENT_NOT_FOUND" "Shipment not found" 404, store)
        | some (idx, s) =>
            let u := { patchApply s d with updatedAt := some now }
            (.success { shipment := u, updatedFields := patchFields d } 200,
             store.set idx u)

/-! ### Helper lemmas about the store search -/

/-- A non-empty left part forces a non-empty concatenation. -/
theorem append_ne_empty_left (a b : String) (ha : a.length ≠ 0) : a ++ b ≠ "" := by
  intro h
  have hlen := congrArg String.length h
  rw [String.length_append] at hlen
  have h0 : ("" : String).length = 0 := rfl
  rw [h0] at hlen
  omega

/-- If some record of the store carries the id, the linear search succeeds. -/
theorem findShipment_mem (store : List Shipment) (sid : String)
    (h : ∃ s ∈ store, s.id = sid) : (findShipment sid store).isSome := by
  induction store with
  | nil => rcases h with ⟨s, hs, _⟩; cases hs
  | cons t rest ih =>
      rcases h with ⟨s, hs, hid⟩
      by_cases ht : t.id = sid
      · simp [findShipment, ht]
      · rcases List.mem_cons.mp hs with rfl | hmem
        · exact absurd hid ht
        · simp only [findShipment, if_neg ht, Option.isSome_map']
          exact ih ⟨s, hmem, hid⟩

/-- If no record of the store carries the id, the linear search fails. -/
theorem findShipment_none (store : List Shipment) (sid : String)
    (h : ∀ s ∈ store, s.id ≠ sid) : findShipment sid store = none := by
  induction store with
  | nil => rfl
  | cons t rest ih =>
      have ht : t.id ≠ sid := h t (by simp)
      simp only [findShipment, if_neg ht]
      rw [ih (fun u hu => h u (by simp [hu]))]
      rfl

/-- The search finds the first matching record, here placed after a prefix
with no matching id. -/
theorem findShipment_append (pre post : List Shipment) (s : Shipment)
    (h : ∀ t ∈ pre, t.id ≠ s.id) :
    findShipment s.id (pre ++ s :: post) = some (pre.length, s) := by
  induction pre with
  | nil => simp [findShipment]
  | cons t rest ih =>
      have ht : t.id ≠ s.id := h t (by simp)
      simp only [List.cons_append, findShipment, if_neg ht, List.append_eq]
      rw [ih (fun u hu => h u (by simp [hu]))]
      rfl

/-- Writing at the index of the distinguished middle element. -/
theorem set_middle (pre post : List Shipment) (s u : Shipment) :
    (pre ++ s :: post).set pre.length u = pre ++ u :: post := by
  induction pre with
  | nil => rfl
  | cons t rest ih => simp [List.set, ih]

/-- Claim C3: creating from any non-null payload appends to the store a
record with status forced to `pending` and non-empty generated `id` and
`trackingNumber`, and returns that record; the payload `status` field is
never consulted. -/
theorem create_shipment_forces_pending (d : CreatePayload) (tsFloat tsInt : String)
    (store : List Shipment) :
    v2_create_shipment (some d) tsFloat tsInt store
      = (.success (newShipment d tsFloat tsInt) 201,
         store ++ [newShipment d tsFloat tsInt]) ∧
    (newShipment d tsFloat tsInt).status = "pending" ∧
    (newShipment d tsFloat tsInt).id ≠ "" ∧
    (newShipment d tsFloat tsInt).trackingNumber ≠ "" := by
  refine ⟨rfl, rfl, ?_, ?_⟩
  · exact append_ne_empty_left "ship-" tsFloat (by decide)
  · exact append_ne_empty_left "TRK-" tsInt (by decide)

/-- Claim C4: on an existing id, a replace payload with an empty `carrier`,
an empty `trackingNumber`, or a `status` outside the five-member enum is
answered with a `VALIDATION_ERROR` response and the store — hence the
stored record — is returned unchanged. -/
theorem replace_validation_short_circuits
    (store : List Shipment) (sid : String) (d : UpdatePayload) (now : String)
    (hmem : ∃ s ∈ store, s.id = sid)
    (hbad : d.carrier = some "" ∨ d.trackingNumber = some "" ∨
            ∃ v, d.status = some v ∧ v ∉ validStatuses) :
    ∃ msg, v2_update_shipment sid (some d) now store
      = (.error "VALIDATION_ERROR" msg 400, store) := by
  have hfind := findShipment_mem store sid hmem
  obtain ⟨⟨idx, s⟩, hf⟩ := Option.isSome_iff_exists.mp hfind
  unfold v2_update_shipment
  rw [hf]
  by_cases hc : d.carrier = some ""
  · exact ⟨"Carrier cannot be empty", by simp [hc]⟩
  · by_cases htr : d.trackingNumber = some ""
    · exact ⟨"Tracking number cannot be empty", by simp [hc, htr]⟩
    · rcases hbad with h | h | ⟨v, hv, hnv⟩
      · exact absurd h hc
      · exact absurd h htr
      · refine ⟨"Invalid status. Must be one of: pending, in_transit, delivered, cancelled, delayed", ?_⟩
        simp [hc, htr, hv, hnv]

/-- A sample stored shipment used by concrete witnesses. -/
def sampleShipment : Shipment :=
  { id := "ship-1"
    trackingNumber := "TRK-1"
    orderId := some "ord-1"
    carrier := some "FedEx"
    origin := some "NY"
    destination := some "LA"
    shipDate := none
    estimatedDelivery := some "2024-01-01"
    status := "pending" }

/-- A payload whose `status` is outside the five-member enum. -/
def lostStatusPayload : UpdatePayload := { status := some "lost" }

/-- Witness for claim C4: replacing `sampleShipment` with status `lost`. -/
theorem replace_validation_short_circuits_witness :
    (∃ s ∈ [sampleShipment], s.id = "ship-1") ∧
    (lostStatusPayload.carrier = some "" ∨ lostStatusPayload.trackingNumber = some "" ∨
      ∃ v, lostStatusPayload.status = some v ∧ v ∉ validStatuses) ∧
    ∃ msg, v2_update_shipment "ship-1" (some lostStatusPayload) "T0" [sampleShipment]
      = (.error "VALIDATION_ERROR" msg 400, [sampleShipment]) :=
  ⟨⟨sampleShipment, by simp, rfl⟩,
   Or.inr (Or.inr ⟨"lost", rfl, by decide⟩),
   replace_validation_short_circuits [sampleShipment] "ship-1" lostStatusPayload "T0"
     ⟨sampleShipment, by simp, rfl⟩
     (Or.inr (Or.inr ⟨"lost", rfl, by decide⟩))⟩

/-- Field-level description of the PUT update step. -/
theorem replaceApply_fields (s : Shipment) (d : UpdatePayload) (now : String) :
    (replaceApply s d now).id = s.id ∧
    (replaceApply s d now).carrier
      = (match d.carrier with | some v => some v | none => s.carrier) ∧
    (replaceApply s d now).trackingNumber
      = (match d.trackingNumber with | some v => v | none => s.trackingNumber) ∧
    (replaceApply s d now).status
      = (match d.status with | some v => v | none => s.status) ∧
    (replaceApply s d now).estimatedDelivery
      = (match d.estimatedDeliveryDate with
         | some v => some v | none => s.estimatedDelivery) ∧
    (replaceApply s d now).orderId = s.orderId ∧
    (replaceApply s d now).origin = s.origin ∧
    (replaceApply s d now).destination = s.destination ∧
    (replaceApply s d now).shipDate = s.shipDate ∧
    (replaceApply s d now).items = s.items ∧
    (replaceApply s d now).location = s.location ∧
    (replaceApply s d now).updatedAt = some now := by
  cases hc : d.carrier <;> cases ht : d.trackingNumber <;> cases hs : d.status <;>
    cases he : d.estimatedDeliveryDate <;> simp [replaceApply, hc, ht, hs, he]

/-- Claim C5 (amended): on a valid payload for an existing shipment, the PUT
handler overwrites exactly the payload-present fields `carrier`,
`trackingNumber` and `status`; the record field `estimatedDelivery` is
overwritten only when the payload key `estimatedDeliveryDate` is present
(a payload key named `estimatedDelivery` is ignored); every other record
field except `updatedAt` keeps its prior value; the updated record is
returned and written back at its position. -/
theorem replace_overwrites_exactly
    (pre post : List Shipment) (s : Shipment) (d : UpdatePayload) (now : String)
    (hpre : ∀ t ∈ pre, t.id ≠ s.id)
    (hc : d.carrier ≠ some "") (ht : d.trackingNumber ≠ some "")
    (hs : ∀ v, d.status = some v → v ∈ validStatuses) :
    v2_update_shipment s.id (some d) now (pre ++ s :: post)
      = (.success (replaceApply s d now) 200,
         pre ++ replaceApply s d now :: post) ∧
    (replaceApply s d now).id = s.id ∧
    (replaceApply s d now).carrier
      = (match d.carrier with | some v => some v | none => s.carrier) ∧
    (replaceApply s d now).trackingNumber
      = (match d.trackingNumber with | some v => v | none => s.trackingNumber) ∧
    (replaceApply s d now).status
      = (match d.status with | some v => v | none => s.status) ∧
    (replaceApply s d now).estimatedDelivery
      = (match d.estimatedDeliveryDate with
         | some v => some v | none => s.estimatedDelivery) ∧
    (replaceApply s d now).orderId = s.orderId ∧
    (replaceApply s d now).origin = s.origin ∧
    (replaceApply s d now).destination = s.destination ∧
    (replaceApply s d now).shipDate = s.shipDate ∧
    (replaceApply s d now).items = s.items ∧
    (replaceApply s d now).location = s.location ∧
    (replaceApply s d now).updatedAt = some now := by
  refine ⟨?_, replaceApply_fields s d now⟩
  have hfind := findShipment_append pre post s hpre
  have hcond : ¬((match d.status with
                  | some v => !(validStatuses.contains v)
                  | none => false) = true) := by
    cases hv : d.status with
    | none => simp
    | some v =>
        have hmem := hs v hv
        simp [hmem]
  simp only [v2_update_shipment, hfind]
  rw [if_neg hc, if_neg ht, if_neg hcond]
  simp only [set_middle]

/-- A payload carrying only the (ignored by PUT) key `estimatedDelivery`. -/
def edOnlyPayload : UpdatePayload := { estimatedDelivery := some "2099-12-31" }

/-- Counterexample to claim C5 as stated: replacing an existing shipment
with a payload whose `estimatedDelivery` key is present succeeds but leaves
the stored `estimatedDelivery` at its prior value (the handler reads the
key `estimatedDeliveryDate` instead). -/
theorem replace_ed_key_ignored_cx :
    edOnlyPayload.estimatedDelivery = some "2099-12-31" ∧
    v2_update_shipment "ship-1" (some edOnlyPayload) "T0" [sampleShipment]
      = (.success { sampleShipment with updatedAt := some "T0" } 200,
         [{ sampleShipment with updatedAt := some "T0" }]) ∧
    ({ sampleShipment with updatedAt := some "T0" } : Shipment).estimatedDelivery
      = some "2024-01-01" := by
  refine ⟨rfl, ?_, rfl⟩
  decide

/-- Witness for the amended claim C5 at a concrete input. -/
theorem replace_overwrites_exactly_witness :
    (∀ t ∈ ([] : List Shipment), t.id ≠ sampleShipment.id) ∧
    ({ carrier := some "UPS", status := some "in_transit" } : UpdatePayload).carrier ≠ some "" ∧
    ({ carrier := some "UPS", status := some "in_transit" } : UpdatePayload).trackingNumber ≠ some "" ∧
    (∀ v, ({ carrier := some "UPS", status := some "in_transit" } : UpdatePayload).status = some v
       → v ∈ validStatuses) ∧
    (v2_update_shipment "ship-1"
        (some { carrier := some "UPS", status := some "in_transit" }) "T2"
        [sampleShipment]).2.map (fun t => (t.carrier, t.status, t.estimatedDelivery))
      = [(some "UPS", "in_transit", some "2024-01-01")] := by
  refine ⟨by simp, by decide, by decide, ?_, ?_⟩
  · intro v hv
    cases hv
    decide
  · have happ := replace_overwrites_exactly [] [] sampleShipment
      { carrier := some "UPS", status := some "in_transit" } "T2"
      (by simp) (by decide) (by decide) (by intro v hv; cases hv; decide)
    decide

/-- Claim C6 (amended): the PUT handler rejects a payload whose `status`
lies outside the five-member enum and leaves the store unchanged; the PATCH
handler performs no such validation and stores whatever `status` value the
payload carries, even outside the enum. -/
theorem status_enum_enforcement :
    (∀ (store : List Shipment) (sid : String) (d : UpdatePayload) (now : String),
      (∃ s ∈ store, s.id = sid) →
      (∃ v, d.status = some v ∧ v ∉ validStatuses) →
      (v2_update_shipment sid (some d) now store).2 = store ∧
      (v2_update_shipment sid (some d) now store).1.isError = true) ∧
    (∀ (pre post : List Shipment) (s : Shipment) (d : UpdatePayload)
       (now : String) (v : String),
      (∀ t ∈ pre, t.id ≠ s.id) → d.status = some v →
      ∃ u, v2_patch_shipment s.id (some d) now (pre ++ s :: post)
          = (.success { shipment := u, updatedFields := patchFields d } 200,
             pre ++ u :: post) ∧
        u.status = v) := by
  constructor
  · intro store sid d now hmem hbad
    have hfind := findShipment_mem store sid hmem
    obtain ⟨⟨idx, s⟩, hf⟩ := Option.isSome_iff_exists.mp hfind
    obtain ⟨v, hv, hnv⟩ := hbad
    unfold v2_update_shipment
    rw [hf]
    by_cases hcar : d.carrier = some ""
    · simp [hcar, V2Result.isError]
    · by_cases htr : d.trackingNumber = some ""
      · simp [hcar, htr, V2Result.isError]
      · simp [hcar, htr, hv, hnv, V2Result.isError]
  · intro pre post s d now v hpre hv
    have hne : d.isEmpty = false := by
      simp [UpdatePayload.isEmpty, hv]
    refine ⟨{ patchApply s d with updatedAt := some now }, ?_, ?_⟩
    · have hfind := findShipment_append pre post s hpre
      have hne2 : ¬(d.isEmpty = true) := by rw [hne]; simp
      simp only [v2_patch_shipment, hfind, if_neg hne2, set_middle]
    · simp [patchApply, hv]

/-- Counterexample to claim C6 as stated: patching an existing shipment
with status `lost` (outside the enum) is accepted and stores `lost`. -/
theorem patch_stores_invalid_status_cx :
    ("lost" ∉ validStatuses) ∧
    (v2_patch_shipment "ship-1" (some lostStatusPayload) "T0" [sampleShipment]).2.map
        (fun t => t.status) = ["lost"] ∧
    (v2_patch_shipment "ship-1" (some lostStatusPayload) "T0" [sampleShipment]).1.isError
      = false := by
  refine ⟨by decide, by decide, by decide⟩

/-- Witness for the amended claim C6: both parts at concrete inputs. -/
theorem status_enum_enforcement_witness :
    ((∃ s ∈ [sampleShipment], s.id = "ship-1") ∧
      (∃ v, lostStatusPayload.status = some v ∧ v ∉ validStatuses) ∧
      (v2_update_shipment "ship-1" (some lostStatusPayload) "T0" [sampleShipment]).2
        = [sampleShipment]) ∧
    ((∀ t ∈ ([] : List Shipment), t.id ≠ sampleShipment.id) ∧
      lostStatusPayload.status = some "lost" ∧
      (v2_patch_shipment "ship-1" (some lostStatusPayload) "T0" [sampleShipment]).2.map
        (fun t => t.status) = ["lost"]) := by
  constructor
  · refine ⟨⟨sampleShipment, by simp, rfl⟩, ⟨"lost", rfl, by decide⟩, ?_⟩
    exact (status_enum_enforcement.1 [sampleShipment] "ship-1" lostStatusPayload "T0"
      ⟨sampleShipment, by simp, rfl⟩ ⟨"lost", rfl, by decide⟩).1
  · refine ⟨by simp, rfl, ?_⟩
    have happ := status_enum_enforcement.2 [] [] sampleShipment lostStatusPayload "T0" "lost"
      (by simp) rfl
    decide

/-- Claim C7 (amended): for an identifier never created by the store, the
PUT and PATCH handlers answer `SHIPMENT_NOT_FOUND` with HTTP 404 and leave
the store unchanged, but the GET handler ignores the store entirely and
answers a fixed success record with HTTP 200 for every identifier. -/
theorem not_found_contract (store : List Shipment) (sid : String)
    (h : ∀ s ∈ store, s.id ≠ sid) :
    (∀ (d : UpdatePayload) (now : String),
      v2_update_shipment sid (some d) now store
        = (.error "SHIPMENT_NOT_FOUND" ("Shipment with ID " ++ sid ++ " not found") 404,
           store)) ∧
    (∀ (d : UpdatePayload) (now : String), d.isEmpty = false →
      v2_patch_shipment sid (some d) now store
        = (.error "SHIPMENT_NOT_FOUND" "Shipment not found" 404, store)) ∧
    v2_get_shipment_by_id sid store
      = .success
          { id := sid, trackingNumber := "TRK-001", status := "in_transit",
            estimatedDelivery := "2024-02-01" } 200 := by
  have hfind := findShipment_none store sid h
  refine ⟨?_, ?_, rfl⟩
  · intro d now
    simp only [v2_update_shipment, hfind]
  · intro d now hne
    have hne2 : ¬(d.isEmpty = true) := by rw [hne]; simp
    simp only [v2_patch_shipment, if_neg hne2, hfind]

/-- Counterexample to claim C7 as stated: on the empty store (no identifier
was ever created) the GET handler answers success, not `NotFound`. -/
theorem get_never_not_found_cx :
    (v2_get_shipment_by_id "ghost" []).isError = false ∧
    v2_get_shipment_by_id "ghost" []
      = .success
          { id := "ghost", trackingNumber := "TRK-001", status := "in_transit",
            estimatedDelivery := "2024-02-01" } 200 :=
  ⟨rfl, rfl⟩

/-- Witness for the amended claim C7 at a concrete input. -/
theorem not_found_contract_witness :
    (∀ s ∈ [sampleShipment], s.id ≠ "ghost") ∧
    lostStatusPayload.isEmpty = false ∧
    (v2_update_shipment "ghost" (some lostStatusPayload) "T0" [sampleShipment]
        = (.error "SHIPMENT_NOT_FOUND" ("Shipment with ID " ++ "ghost" ++ " not found") 404,
           [sampleShipment])) ∧
    (v2_patch_shipment "ghost" (some lostStatusPayload) "T0" [sampleShipment]
        = (.error "SHIPMENT_NOT_FOUND" "Shipment not found" 404, [sampleShipment])) := by
  have h : ∀ s ∈ [sampleShipment], s.id ≠ "ghost" := by decide
  obtain ⟨h1, h2, _⟩ := not_found_contract [sampleShipment] "ghost" h
  exact ⟨h, by decide, h1 lostStatusPayload "T0", h2 lostStatusPayload "T0" (by decide)⟩

/-- Membership in a conditional singleton list. -/
theorem mem_ite_singleton {a b : String} {c : Prop} [Decidable c] :
    (a ∈ (if c then [b] else [])) ↔ (c ∧ a = b) := by
  split <;> simp_all

/-- Claim C8: for an existing shipment and a non-empty patch payload, the
PATCH handler overwrites exactly the allow-list fields present in the
payload, leaves every other field except `updatedAt` at its prior value,
and reports in `updatedFields` exactly the names of the applied fields. -/
theorem patch_field_local
    (pre post : List Shipment) (s : Shipment) (d : UpdatePayload) (now : String)
    (hpre : ∀ t ∈ pre, t.id ≠ s.id) (hne : d.isEmpty = false) :
    ∃ u, v2_patch_shipment s.id (some d) now (pre ++ s :: post)
        = (.success { shipment := u, updatedFields := patchFields d } 200,
           pre ++ u :: post) ∧
      u.id = s.id ∧
      u.carrier = s.carrier ∧
      u.shipDate = s.shipDate ∧
      u.status = (match d.status with | some v => v | none => s.status) ∧
      u.trackingNumber
        = (match d.trackingNumber with | some v => v | none => s.trackingNumber) ∧
      u.orderId = (match d.orderId with | some v => some v | none => s.orderId) ∧
      u.items = (match d.items with | some v => some v | none => s.items) ∧
      u.origin = (match d.origin with | some v => some v | none => s.origin) ∧
      u.destination
        = (match d.destination with | some v => some v | none => s.destination) ∧
      u.estimatedDelivery
        = (match d.estimatedDelivery with
           | some v => some v | none => s.estimatedDelivery) ∧
      u.location = (match d.location with | some v => some v | none => s.location) ∧
      u.updatedAt = some now ∧
      (("status" ∈ patchFields d) ↔ d.status.isSome = true) ∧
      (("trackingNumber" ∈ patchFields d) ↔ d.trackingNumber.isSome = true) ∧
      (("orderId" ∈ patchFields d) ↔ d.orderId.isSome = true) ∧
      (("items" ∈ patchFields d) ↔ d.items.isSome = true) ∧
      (("origin" ∈ patchFields d) ↔ d.origin.isSome = true) ∧
      (("destination" ∈ patchFields d) ↔ d.destination.isSome = true) ∧
      (("estimatedDelivery" ∈ patchFields d) ↔ d.estimatedDelivery.isSome = true) ∧
      (("location" ∈ patchFields d) ↔ d.location.isSome = true) ∧
      patchFields d ⊆
        ["status", "trackingNumber", "orderId", "items", "origin",
         "destination", "estimatedDelivery", "location"] := by
  refine ⟨{ patchApply s d with updatedAt := some now }, ?_, rfl, rfl, rfl, rfl, rfl,
    rfl, rfl, rfl, rfl, rfl, rfl, rfl, ?_, ?_, ?_, ?_, ?_, ?_, ?_, ?_, ?_⟩
  · have hfind := findShipment_append pre post s hpre
    have hne2 : ¬(d.isEmpty = true) := by rw [hne]; simp
    simp only [v2_patch_shipment, hfind, if_neg hne2, set_middle]
  · simp [patchFields, mem_ite_singleton]
  · simp [patchFields, mem_ite_singleton]
  · simp [patchFields, mem_ite_singleton]
  · simp [patchFields, mem_ite_singleton]
  · simp [patchFields, mem_ite_singleton]
  · simp [patchFields, mem_ite_singleton]
  · simp [patchFields, mem_ite_singleton]
  · simp [patchFields, mem_ite_singleton]
  · intro f hf
    simp only [patchFields, List.mem_append, mem_ite_singleton] at hf
    rcases hf with ((((((⟨_, rfl⟩ | ⟨_, rfl⟩) | ⟨_, rfl⟩) | ⟨_, rfl⟩) | ⟨_, rfl⟩)
      | ⟨_, rfl⟩) | ⟨_, rfl⟩) | ⟨_, rfl⟩ <;> simp

/-- The patch payload from the concrete instance named by claim C8. -/
def deliveredPayload : UpdatePayload := { status := some "delivered" }

/-- Witness for claim C8 on the instance named by the claim: a shipment
with carrier FedEx patched with status `delivered`. -/
theorem patch_field_local_witness :
    (∀ t ∈ ([] : List Shipment), t.id ≠ sampleShipment.id) ∧
    deliveredPayload.isEmpty = false ∧
    sampleShipment.carrier = some "FedEx" ∧
    (v2_patch_shipment "ship-1" (some deliveredPayload) "T1" [sampleShipment]).2.map
        (fun t => (t.status, t.carrier)) = [("delivered", some "FedEx")] ∧
    (v2_patch_shipment "ship-1" (some deliveredPayload) "T1" [sampleShipment]).1
      = .success
          { shipment := { sampleShipment with status := "delivered", updatedAt := some "T1" }
            updatedFields := ["status"] } 200 := by
  have happ := patch_field_local [] [] sampleShipment deliveredPayload "T1"
    (by simp) (by decide)
  exact ⟨by simp, by decide, rfl, by decide, by decide⟩

/-! ### Operation sequences for the store-lifetime id-uniqueness claim -/

/-- One invocation of a mutating shipment handler, with its decoded body
and the clock readings the handler would observe. -/
inductive StoreOp where
  | createOp (data : Option CreatePayload) (tsFloat tsInt : String)
  | replaceOp (shipment_id : String) (data : Option UpdatePayload) (now : String)
  | patchOp (shipment_id : String) (data : Option UpdatePayload) (now : String)

/-- The store after one handler invocation. -/
def applyOp (store : List Shipment) : StoreOp → List Shipment
  | .createOp d a b => (v2_create_shipment d a b store).2
  | .replaceOp i d now => (v2_update_shipment i d now store).2
  | .patchOp i d now => (v2_patch_shipment i d now store).2

/-- The store after a sequence of handler invocations, starting empty
(`created_shipments = []` at process start). -/
def runOps (ops : List StoreOp) : List Shipment := ops.foldl applyOp []

/-- The id-clock reading of an op, present exactly when the op is a create
with a non-null body (the only case that appends a record). -/
def StoreOp.createTs : StoreOp → Option String
  | .createOp (some _) tsF _ => some tsF
  | _ => none

/-- The PUT field assignments never change the record id. -/
theorem replaceApply_id (s : Shipment) (d : UpdatePayload) (now : String) :
    (replaceApply s d now).id = s.id := by
  cases hc : d.carrier <;> cases ht : d.trackingNumber <;> cases hs : d.status <;>
    cases he : d.estimatedDeliveryDate <;> simp [replaceApply, hc, ht, hs, he]

/-- The linear search reports the element stored at the reported index. -/
theorem findShipment_get (store : List Shipment) (sid : String) (idx : Nat)
    (s : Shipment) (hf : findShipment sid store = some (idx, s)) :
    store.get? idx = some s := by
  induction store generalizing idx with
  | nil => cases hf
  | cons t rest ih =>
      by_cases ht : t.id = sid
      · simp only [findShipment, if_pos ht] at hf
        obtain ⟨rfl, rfl⟩ := Prod.mk.injEq _ _ _ _ ▸ Option.some.injEq _ _ ▸ hf
        rfl
      · simp only [findShipment, if_neg ht] at hf
        cases hfr : findShipment sid rest with
        | none => rw [hfr] at hf; cases hf
        | some p =>
            obtain ⟨j, u⟩ := p
            rw [hfr] at hf
            simp only [Option.map_some', Option.some.injEq, Prod.mk.injEq] at hf
            obtain ⟨hidx, rfl⟩ := hf
            subst hidx
            exact ih j hfr

/-- Overwriting a position with a record of the same id leaves the list of
ids unchanged. -/
theorem map_id_set (store : List Shipment) (idx : Nat) (u s : Shipment)
    (hg : store.get? idx = some s) (hid : u.id = s.id) :
    (store.set idx u).map (fun t => t.id) = store.map (fun t => t.id) := by
  induction store generalizing idx with
  | nil => cases hg
  | cons t rest ih =>
      cases idx with
      | zero =>
          simp only [List.get?] at hg
          obtain rfl := Option.some.injEq _ _ ▸ hg
          simp [List.set, hid]
      | succ j =>
          simp only [List.get?] at hg
          simp [List.set, ih j hg]

/-- Effect of one handler invocation on the list of stored ids: a create
with a non-null body appends `ship-` followed by its clock reading; every
other invocation leaves the ids unchanged. -/
theorem applyOp_map_id (store : List Shipment) (op : StoreOp) :
    (applyOp store op).map (fun t => t.id)
      = store.map (fun t => t.id)
        ++ (op.createTs.map (fun ts => "ship-" ++ ts)).toList := by
  cases op with
  | createOp d a b =>
      cases d with
      | none => simp [applyOp, v2_create_shipment, StoreOp.createTs]
      | some dd => simp [applyOp, v2_create_shipment, StoreOp.createTs, newShipment]
  | replaceOp i d now =>
      cases d with
      | none => simp [applyOp, v2_update_shipment, StoreOp.createTs]
      | some dd =>
          simp only [applyOp, StoreOp.createTs, Option.map_none', Option.toList_none,
            List.append_nil, v2_update_shipment]
          cases hf : findShipment i store with
          | none => rfl
          | some p =>
              obtain ⟨idx, s⟩ := p
              have hset := map_id_set store idx (replaceApply s dd now) s
                (findShipment_get store i idx s hf) (replaceApply_id s dd now)
              by_cases hc : dd.carrier = some ""
              · simp [hc]
              · by_cases ht : dd.trackingNumber = some ""
                · simp [hc, ht]
                · cases hcond : (match dd.status with
                                 | some v => !(validStatuses.contains v)
                                 | none => false) with
                  | true => simp [hc, ht, hcond]
                  | false => simp [hc, ht, hcond, hset]
  | patchOp i d now =>
      cases d with
      | none => simp [applyOp, v2_patch_shipment, StoreOp.createTs]
      | some dd =>
          simp only [applyOp, StoreOp.createTs, Option.map_none', Option.toList_none,
            List.append_nil, v2_patch_shipment]
          by_cases hne : dd.isEmpty = true
          · simp [hne]
          · rw [if_neg hne]
            cases hf : findShipment i store with
            | none => rfl
            | some p =>
                obtain ⟨idx, s⟩ := p
                have hset := map_id_set store idx
                  { patchApply s dd with updatedAt := some now } s
                  (findShipment_get store i idx s hf) rfl
                simp [hset]

/-- The ids present after a run are exactly `ship-` followed by the clock
readings of the creates that appended a record, in order. -/
theorem foldl_map_id (ops : List StoreOp) :
    ∀ init : List Shipment,
      ((ops.foldl applyOp init).map (fun t => t.id))
        = init.map (fun t => t.id)
          ++ (ops.filterMap StoreOp.createTs).map (fun ts => "ship-" ++ ts) := by
  induction ops with
  | nil => intro init; simp
  | cons op rest ih =>
      intro init
      simp only [List.foldl_cons]
      rw [ih (applyOp init op), applyOp_map_id]
      cases hop : StoreOp.createTs op <;>
        simp [List.filterMap_cons, hop, List.append_assoc]

/-- Prefixing with `ship-` is injective in the clock string. -/
theorem ship_prefix_injective :
    Function.Injective (fun ts : String => "ship-" ++ ts) := by
  intro a b h
  have hd : ("ship-" ++ a).data = ("ship-" ++ b).data := congrArg String.data h
  rw [String.data_append, String.data_append] at hd
  exact String.ext (List.append_cancel_left hd)

/-- Claim C9 (amended): starting from the empty store, if the id-clock
readings observed by the record-appending creates of an operation sequence
are pairwise distinct, then no two records in the resulting store share an
id.  (The unamended claim fails when two creates observe the same clock
string; see the counterexample.) -/
theorem create_ids_distinct (ops : List StoreOp)
    (h : (ops.filterMap StoreOp.createTs).Nodup) :
    ((runOps ops).map (fun t => t.id)).Nodup := by
  unfold runOps
  rw [foldl_map_id ops []]
  simp only [List.map_nil, List.nil_append]
  exact h.map ship_prefix_injective

/-- Two creates that observe the identical clock reading. -/
def sameClockOps : List StoreOp :=
  [.createOp (some {}) "1700000000.5" "1700000000",
   .createOp (some {}) "1700000000.5" "1700000000"]

/-- Counterexample to claim C9 as stated: two creates within the same clock
reading produce two stored records with the same id. -/
theorem duplicate_ids_cx :
    (runOps sameClockOps).map (fun t => t.id)
      = ["ship-1700000000.5", "ship-1700000000.5"] ∧
    ¬ ((runOps sameClockOps).map (fun t => t.id)).Nodup := by
  exact ⟨by decide, by decide⟩

/-- Two creates with distinct clock readings, for the amended witness. -/
def distinctClockOps : List StoreOp :=
  [.createOp (some {}) "1700000000.5" "1700000000",
   .createOp (some {}) "1700000001.5" "1700000001"]

/-- Witness for the amended claim C9 at a concrete input. -/
theorem create_ids_distinct_witness :
    (distinctClockOps.filterMap StoreOp.createTs).Nodup ∧
    ((runOps distinctClockOps).map (fun t => t.id)).Nodup :=
  ⟨by decide, create_ids_distinct distinctClockOps (by decide)⟩

end ERP
